import Mathlib

/-!
Shallow embedding of the query-routing core of the repository:
`query_classifier.py` (rule-based classifier), `langgraph_router.py`
(decision-graph router) and `main.py` (orchestrator).

Strings are modelled as `List Char` where convenient (Lean `String` in
version 4.14 is a structure holding a `List Char`).  Python's
`str.lower` is modelled for ASCII (`lowerChar`), `str.strip` by
`trimList` (both sides, `Char.isWhitespace`), `in` (substring test) by
`occursIn`, and `str.split()` by `tokens` (split on whitespace runs,
dropping empty pieces).  Each `re.search` call is translated into a
decidable matcher; the regexes involved use only literals, character
classes (`\d`, `\s`, `[a-zA-Z]`, `[+\-*/]`), alternation and `.*`
(where `.` excludes the newline character), so existence of a match is
expressed by scanning all suffixes (`scanSuffixes`).  Exceptions are
modelled with `Except`: a fallible collaborator call is a value of type
`Except String α`, and a `try/except` block is a `match` on it.
-/

namespace QueryRouting

/-- ASCII model of Python `str.lower` on a single character: uppercase
ASCII letters map to their lowercase counterparts, everything else is
unchanged. -/
def lowerChar (c : Char) : Char :=
  match c with
  | 'A' => 'a' | 'B' => 'b' | 'C' => 'c' | 'D' => 'd' | 'E' => 'e'
  | 'F' => 'f' | 'G' => 'g' | 'H' => 'h' | 'I' => 'i' | 'J' => 'j'
  | 'K' => 'k' | 'L' => 'l' | 'M' => 'm' | 'N' => 'n' | 'O' => 'o'
  | 'P' => 'p' | 'Q' => 'q' | 'R' => 'r' | 'S' => 's' | 'T' => 't'
  | 'U' => 'u' | 'V' => 'v' | 'W' => 'w' | 'X' => 'x' | 'Y' => 'y'
  | 'Z' => 'z'
  | c => c

/-- Python `str.lower` on a whole string (as a character list). -/
def lowerList (l : List Char) : List Char := l.map lowerChar

/-- Python `str.strip`: drop whitespace from both ends. -/
def trimList (l : List Char) : List Char :=
  (((l.dropWhile Char.isWhitespace).reverse.dropWhile Char.isWhitespace)).reverse

/-- `query.lower().strip()` of `classify_query`: the normalized query. -/
def normalizeQuery (q : String) : List Char := trimList (lowerList q.toList)

/-- Python substring containment `pat in hay` (`occursIn pat hay`). -/
def occursIn (pat : List Char) : List Char → Bool
  | [] => pat.isEmpty
  | c :: t => pat.isPrefixOf (c :: t) || occursIn pat t

/-- `pat in hay` for Lean strings. -/
def containsStr (hay pat : String) : Bool := occursIn pat.toList hay.toList

/-- Python `str.split()`: split on runs of whitespace, no empty tokens. -/
def tokens (l : List Char) : List (List Char) :=
  (l.splitOnP Char.isWhitespace).filter (fun w => !w.isEmpty)

/-- `re.search` existence: some suffix of the text satisfies `p`. -/
def scanSuffixes (p : List Char → Bool) : List Char → Bool
  | [] => p []
  | c :: t => p (c :: t) || scanSuffixes p t

/-- The character class `[+\-*/]`. -/
def isOp (c : Char) : Bool := c == '+' || c == '-' || c == '*' || c == '/'

/-- Greedy `\s*`: drop leading whitespace (sound here because none of
the characters that may follow `\s*` in the patterns below is itself
whitespace). -/
def dropWs (l : List Char) : List Char := l.dropWhile Char.isWhitespace

/-- After `\s*`, an operator `[+\-*/]`; returns the rest on success. -/
def wsOpThen (l : List Char) : Option (List Char) :=
  match dropWs l with
  | c :: t => if isOp c then some t else none
  | [] => none

/-- After `\s*`, a character satisfying `p`. -/
def wsCharIs (p : Char → Bool) (l : List Char) : Bool :=
  match dropWs l with
  | c :: _ => p c
  | [] => false

/-- A match of `X\s*[+\-*/]\s*Y` starting at the head of the list,
where `X` is the head class and `Y` the tail class. -/
def headOpTail (x y : Char → Bool) : List Char → Bool
  | c :: t =>
      x c &&
        (match wsOpThen t with
         | some t2 => wsCharIs y t2
         | none => false)
  | [] => false

/-- `.*` gap of `re` (a run of non-newline characters) followed by
`pat`. -/
def gapThen (pat : List Char) : List Char → Bool
  | [] => pat.isPrefixOf []
  | c :: t => pat.isPrefixOf (c :: t) || (c != '\n' && gapThen pat t)

/-- `re.search(A.*B, l)` existence: an occurrence of `A`, then a
newline-free gap, then `B`. -/
def searchGap (a b : List Char) (l : List Char) : Bool :=
  scanSuffixes (fun s => a.isPrefixOf s && gapThen b (s.drop a.length)) l

/-- `re.search(\d+\s*[+\-*/]\s*\d+, l)` existence.  A match of the full
pattern exists iff a single digit followed by `\s*[+\-*/]\s*\d` occurs
(take the last digit of the leading digit run). -/
def mathPat1 (l : List Char) : Bool :=
  scanSuffixes (headOpTail Char.isDigit Char.isDigit) l

/-- `re.search([a-zA-Z]\s*[+\-*/]\s*\d+, l)` existence. -/
def mathPat2 (l : List Char) : Bool :=
  scanSuffixes (headOpTail Char.isAlpha Char.isDigit) l

/-- `re.search(solve|calculate|compute|find.*value, l)` existence. -/
def mathPat3 (l : List Char) : Bool :=
  occursIn "solve".toList l || occursIn "calculate".toList l ||
    occursIn "compute".toList l || searchGap "find".toList "value".toList l

/-- `re.search(equation|formula|function, l)` existence. -/
def mathPat4 (l : List Char) : Bool :=
  occursIn "equation".toList l || occursIn "formula".toList l ||
    occursIn "function".toList l

/-- `re.search(x\s*[+\-*/]|y\s*[+\-*/], l)` existence. -/
def mathPat5 (l : List Char) : Bool :=
  scanSuffixes
    (fun s =>
      match s with
      | c :: t => (c == 'x' || c == 'y') && (wsOpThen t).isSome
      | [] => false) l

/-- `re.search(\d+\s*[+\-*/]\s*[a-zA-Z], l)` existence. -/
def mathPat6 (l : List Char) : Bool :=
  scanSuffixes (headOpTail Char.isDigit Char.isAlpha) l

/-- `QueryClassifier._is_mathematical_query`: true when any of the six
`math_patterns` matches.  `re.IGNORECASE` is modelled by lowercasing
the text first (the pattern literals are lowercase and the character
classes are case-stable). -/
def is_mathematical_query (query : List Char) : Bool :=
  let l := lowerList query
  mathPat1 l || mathPat2 l || mathPat3 l || mathPat4 l || mathPat5 l ||
    mathPat6 l

/-- `QueryClassifier.search_keywords` (a Python set literal; modelled
as a duplicate-free list, order irrelevant to the score). -/
def search_keywords : List String :=
  ["what is", "who is", "when is", "where is", "which is",
   "capital of", "population of", "currency of", "language of",
   "president of", "prime minister of", "ceo of", "founder of",
   "located in", "founded in", "established in", "created in",
   "current", "latest", "recent", "today", "now",
   "weather", "temperature", "news", "stock price",
   "address", "phone number", "website", "email",
   "how many", "how much", "how long", "how far",
   "distance between", "time in", "date of", "birthday of"]

/-- `QueryClassifier.llm_keywords`. -/
def llm_keywords : List String :=
  ["explain", "describe", "analyze", "compare", "contrast",
   "why", "how does", "how to", "what if", "suppose",
   "solve", "calculate", "compute", "find the value",
   "write", "create", "generate", "make", "build",
   "code", "program", "function", "algorithm",
   "opinion", "think", "believe", "recommend",
   "pros and cons", "advantages", "disadvantages",
   "best way", "better", "improve", "optimize",
   "debug", "fix", "error", "problem", "issue",
   "tutorial", "guide", "steps", "process",
   "concept", "theory", "definition", "meaning",
   "example", "sample", "demo", "illustration"]

/-- `question_starters` of `_calculate_search_score`. -/
def question_starters : List (List Char) :=
  ["what".toList, "who".toList, "when".toList, "where".toList,
   "which".toList, "how".toList]

/-- `factual_patterns` of `_calculate_search_score`: all literal
regexes, so `re.search` is substring containment. -/
def factual_patterns : List String :=
  ["capital of", "population of", "currency of", "president of",
   "ceo of", "founded in", "located in"]

/-- The first whitespace-delimited token of the query, or `""` when
there is none (`query.split()[0] if query.split() else ""`). -/
def firstWord (l : List Char) : List Char := (tokens l).headD []

/-- `QueryClassifier._calculate_search_score` on the normalized query:
+1 per search keyword contained, +1 when the first token is a question
starter, +2 per factual pattern that matches. -/
def calculate_search_score (query : List Char) : Nat :=
  let s1 := search_keywords.foldl
    (fun acc kw => if occursIn kw.toList query then acc + 1 else acc) 0
  let s2 := if question_starters.contains (firstWord query) then s1 + 1 else s1
  factual_patterns.foldl
    (fun acc p => if occursIn p.toList query then acc + 2 else acc) s2

/-- `analytical_patterns` of `_calculate_llm_score`: each is
`A.*B`. -/
def analytical_patterns : List (String × String) :=
  [("explain", "how"), ("why", "happen"), ("what", "think"),
   ("compare", "and"), ("pros", "cons"), ("best", "way"),
   ("how", "work"), ("what", "mean")]

/-- `QueryClassifier._calculate_llm_score` on the normalized query:
+1 per llm keyword contained, +2 per analytical pattern that matches,
+1 when the query has more than 5 whitespace-delimited tokens. -/
def calculate_llm_score (query : List Char) : Nat :=
  let s1 := llm_keywords.foldl
    (fun acc kw => if occursIn kw.toList query then acc + 1 else acc) 0
  let s2 := analytical_patterns.foldl
    (fun acc p => if searchGap p.1.toList p.2.toList query then acc + 2 else acc)
    s1
  if 5 < (tokens query).length then s2 + 1 else s2

/-- `QueryClassifier.classify_query`: normalize, short-circuit on the
mathematical pre-check, else compare the two scores with the
tie-break to `"llm"`. -/
def classify_query (query : String) : String :=
  let query_lower := normalizeQuery query
  if is_mathematical_query query_lower then "llm"
  else
    let search_score := calculate_search_score query_lower
    let llm_score := calculate_llm_score query_lower
    if llm_score < search_score then "search"
    else if search_score < llm_score then "llm"
    else "llm"

/-- `QueryClassifier.get_classification_explanation`'s result
dictionary. -/
structure ClassificationExplanation where
  query : String
  classification : String
  search_score : Nat
  llm_score : Nat
  is_mathematical : Bool
  matched_search_keywords : List String
  matched_llm_keywords : List String
deriving Repr, DecidableEq

/-- `QueryClassifier.get_classification_explanation`: recomputes the
classification, both scores and the math flag on the normalized query,
and lists every matched keyword from each table. -/
def get_classification_explanation (query : String) : ClassificationExplanation :=
  let query_lower := normalizeQuery query
  { query := query
    classification := classify_query query
    search_score := calculate_search_score query_lower
    llm_score := calculate_llm_score query_lower
    is_mathematical := is_mathematical_query query_lower
    matched_search_keywords :=
      search_keywords.filter (fun kw => occursIn kw.toList query_lower)
    matched_llm_keywords :=
      llm_keywords.filter (fun kw => occursIn kw.toList query_lower) }

/-- A result dictionary as produced by the providers, the tool nodes
and the orchestrator; absent keys are `none`. -/
structure ResultDict where
  query : Option String := none
  answer : Option String := none
  source : Option String := none
  query_type : Option String := none
  error : Option String := none
deriving Repr, DecidableEq

/-- `RouterState` of `langgraph_router.py`. -/
structure RouterState where
  query : String
  tool_decision : String
  result : ResultDict
  error : String
deriving Repr, DecidableEq

/-- The initial state built by `LangGraphRouter.process_query`. -/
def initial_state (query : String) : RouterState :=
  { query := query, tool_decision := "", result := {}, error := "" }

/-- `response.content.strip().lower()` of `_router_node`. -/
def stripLower (s : String) : String := ⟨lowerList (trimList s.toList)⟩

/-- The decision-normalization chain of `LangGraphRouter._router_node`,
applied to the stripped, lowercased model reply: exact `google_tool`
or `llm_tool` is used as-is; otherwise substrings decide; otherwise
default to `llm_tool`. -/
def normalize_decision (decision : String) : String :=
  if decision = "google_tool" ∨ decision = "llm_tool" then decision
  else if containsStr decision "google" || containsStr decision "search" then
    "google_tool"
  else if containsStr decision "llm" || containsStr decision "reasoning" ||
      containsStr decision "explain" then
    "llm_tool"
  else "llm_tool"

/-- `LangGraphRouter._router_node`.  The single model invocation made
inside the `try` block is modelled by its outcome `invoke`: either the
reply text or the raised exception's message.  On success the reply is
stripped, lowercased and normalized; on failure the `except` branch
returns the state with the fallback decision and the error recorded. -/
def router_node (state : RouterState) (invoke : Except String String) :
    RouterState :=
  match invoke with
  | Except.ok content =>
      let decision := stripLower content
      { state with tool_decision := normalize_decision decision }
  | Except.error e =>
      { state with tool_decision := "llm_tool"
                   error := "Router error: " ++ e }

/-- `LangGraphRouter._route_decision`: the conditional branch of the
graph, with a defensive `"error"` key for anything unrecognized. -/
def route_decision (state : RouterState) : String :=
  if state.tool_decision = "google_tool" then "google_tool"
  else if state.tool_decision = "llm_tool" then "llm_tool"
  else "error"

/-- The binary decision space of the spec's decision-graph router; the
spec names the search branch `search_tool` where the code keys it
`google_tool`. -/
inductive ToolChoice where
  | searchTool : ToolChoice
  | llmTool : ToolChoice
deriving Repr, DecidableEq

/-- The spec's name for each of the code's two tool keys:
`google_tool` is the search-tool decision, `llm_tool` the other. -/
def keyToChoice (key : String) : ToolChoice :=
  if key = "google_tool" then ToolChoice.searchTool else ToolChoice.llmTool

/-- Modelled from the spec: the decision-graph normalization rules as
the spec states them — exact `search_tool` or `llm_tool` used as-is,
else `google`/`search` substrings give the search decision, else
`llm`/`reasoning`/`explain` give `llm_tool`, else default
`llm_tool`. -/
def spec_normalize_decision (reply : String) : ToolChoice :=
  if reply = "search_tool" then ToolChoice.searchTool
  else if reply = "llm_tool" then ToolChoice.llmTool
  else if containsStr reply "google" || containsStr reply "search" then
    ToolChoice.searchTool
  else if containsStr reply "llm" || containsStr reply "reasoning" ||
      containsStr reply "explain" then
    ToolChoice.llmTool
  else ToolChoice.llmTool

/-- `IntelligentQueryRouter.process_query` of `main.py`.  The two
provider collaborators are parameters; a provider call that raises is
an `Except.error`.  The `try` block classifies, dispatches, tags the
result with `source` and `query_type`; the `except` branch converts
any provider exception into the error-handler result shape. -/
def process_query (search_provider llm_provider : String → Except String ResultDict)
    (query : String) : ResultDict :=
  let query_type := classify_query query
  let dispatched : Except String ResultDict :=
    if query_type = "search" then
      (search_provider query).map (fun r => { r with source := some "Google Search" })
    else if query_type = "llm" then
      (llm_provider query).map (fun r => { r with source := some "OpenAI LLM" })
    else
      (llm_provider query).map
        (fun r => { r with source := some "OpenAI LLM (fallback)" })
  match dispatched with
  | Except.ok r => { r with query_type := some query_type }
  | Except.error e =>
      { error := some e, query := some query, source := some "Error Handler" }

/-! ### Helper lemmas -/

/-- A fold that adds `k` for every element satisfying `p` computes
`k` times the count of such elements. -/
theorem foldl_count_add {α : Type} (p : α → Bool) (k : Nat) :
    ∀ (L : List α) (n : Nat),
      L.foldl (fun acc x => if p x then acc + k else acc) n =
        n + k * L.countP p := by
  intro L
  induction L with
  | nil => intro n; simp
  | cons x t ih =>
      intro n
      simp only [List.foldl_cons, List.countP_cons]
      rw [ih]
      by_cases h : p x = true
      · simp [h]; ring
      · simp [h]

/-- `occursIn` is the infix relation. -/
theorem occursIn_infix_iff (p : List Char) :
    ∀ l : List Char, occursIn p l = true ↔ p <:+: l := by
  intro l
  induction l with
  | nil =>
      simp [occursIn, List.isEmpty_iff]
  | cons c t ih =>
      rw [occursIn, Bool.or_eq_true, List.isPrefixOf_iff_prefix, ih,
        List.infix_cons_iff]

/-- An occurrence of a nonempty whitespace-free pattern survives
dropping leading whitespace. -/
theorem infix_dropWhile_of_no_ws (p : List Char) (hne : p ≠ [])
    (hp : ∀ c ∈ p, Char.isWhitespace c = false) :
    ∀ l : List Char, p <:+: l → p <:+: l.dropWhile Char.isWhitespace := by
  intro l
  induction l with
  | nil =>
      intro h
      exact absurd (List.eq_nil_of_infix_nil h) hne
  | cons a t ih =>
      intro h
      by_cases ha : Char.isWhitespace a = true
      · rw [List.dropWhile_cons, if_pos ha]
        rcases List.infix_cons_iff.mp h with hpre | hinf
        · cases p with
          | nil => exact absurd rfl hne
          | cons b p' =>
              have hb : b = a := (List.cons_prefix_cons.mp hpre).1
              have : Char.isWhitespace b = false := hp b (List.mem_cons_self b p')
              rw [hb, ha] at this
              exact absurd this (by simp)
        · exact ih hinf
      · rw [List.dropWhile_cons, if_neg ha]
        exact h

/-- An occurrence of a nonempty whitespace-free pattern survives
`trimList`. -/
theorem infix_trimList (p l : List Char) (hne : p ≠ [])
    (hp : ∀ c ∈ p, Char.isWhitespace c = false) (h : p <:+: l) :
    p <:+: trimList l := by
  unfold trimList
  have h1 : p <:+: l.dropWhile Char.isWhitespace :=
    infix_dropWhile_of_no_ws p hne hp l h
  have h2 : p.reverse <:+: (l.dropWhile Char.isWhitespace).reverse :=
    List.reverse_infix.mpr h1
  have hpr : ∀ c ∈ p.reverse, Char.isWhitespace c = false := by
    intro c hc
    exact hp c (List.mem_reverse.mp hc)
  have hner : p.reverse ≠ [] := by
    simpa using hne
  have h3 := infix_dropWhile_of_no_ws p.reverse hner hpr _ h2
  rw [← List.reverse_infix, List.reverse_reverse]
  exact h3

/-- An occurrence of a pattern fixed by `lowerChar` survives
lowercasing. -/
theorem infix_lowerList (p l : List Char) (hp : ∀ c ∈ p, lowerChar c = c)
    (h : p <:+: l) : p <:+: lowerList l := by
  obtain ⟨s, t, rfl⟩ := h
  have hmap : p.map lowerChar = p := by
    conv_rhs => rw [← List.map_id p]
    exact List.map_congr_left hp
  exact ⟨s.map lowerChar, t.map lowerChar, by
    simp [lowerList, hmap]⟩

/-- The normalization chain only ever emits the two tool keys. -/
theorem normalize_decision_mem (d : String) :
    normalize_decision d = "google_tool" ∨ normalize_decision d = "llm_tool" := by
  unfold normalize_decision
  split
  · next h => rcases h with h | h <;> simp [h]
  · split
    · left; rfl
    · split
      · right; rfl
      · right; rfl

/-- The mathematical pre-check short-circuits `classify_query` to
`"llm"`. -/
theorem classify_query_of_mathematical (q : String)
    (h : is_mathematical_query (normalizeQuery q) = true) :
    classify_query q = "llm" := by
  simp [classify_query, h]

/-- An occurrence of a lowercase, whitespace-free word in the
lowercased query is still seen by the pattern matchers after the
classifier's own normalization. -/
theorem occursIn_after_normalize (w q : String) (hne : w.toList ≠ [])
    (hws : ∀ c ∈ w.toList, Char.isWhitespace c = false)
    (hlo : ∀ c ∈ w.toList, lowerChar c = c)
    (h : occursIn w.toList (lowerList q.toList) = true) :
    occursIn w.toList (lowerList (normalizeQuery q)) = true := by
  rw [occursIn_infix_iff] at h ⊢
  exact infix_lowerList _ _ hlo (infix_trimList _ _ hne hws h)

/-! ### Claim theorems -/

/-- C1: if any of the mathematical patterns matches the lowercased,
trimmed query (the pre-check, evaluated before any scoring), then
`classify_query` returns `"llm"`, whatever the two scores are —
mathematical queries are never routed to search. -/
theorem C1_mathematical_query_routes_to_llm (q : String)
    (h : is_mathematical_query (normalizeQuery q) = true) :
    classify_query q = "llm" :=
  classify_query_of_mathematical q h

theorem C1_mathematical_query_routes_to_llm_witness :
    is_mathematical_query (normalizeQuery "Solve 2x + 5 = 15") = true ∧
      classify_query "Solve 2x + 5 = 15" = "llm" :=
  ⟨by decide, C1_mathematical_query_routes_to_llm "Solve 2x + 5 = 15" (by decide)⟩

/-- C2: on every non-mathematical query `classify_query` returns
`"search"` when the search score is strictly larger, `"llm"` when the
llm score is strictly larger, and `"llm"` on a tie; it is total with
range `{"search", "llm"}`, and the empty string gives scores `(0, 0)`
and hence `"llm"`. -/
theorem C2_classify_query_score_comparison (q : String) :
    (is_mathematical_query (normalizeQuery q) = false →
      (calculate_llm_score (normalizeQuery q) <
          calculate_search_score (normalizeQuery q) →
        classify_query q = "search") ∧
      (calculate_search_score (normalizeQuery q) <
          calculate_llm_score (normalizeQuery q) →
        classify_query q = "llm") ∧
      (calculate_search_score (normalizeQuery q) =
          calculate_llm_score (normalizeQuery q) →
        classify_query q = "llm")) ∧
    (classify_query q = "search" ∨ classify_query q = "llm") ∧
    classify_query "" = "llm" ∧
    calculate_search_score (normalizeQuery "") = 0 ∧
    calculate_llm_score (normalizeQuery "") = 0 := by
  refine ⟨?_, ?_, by decide, by decide, by decide⟩
  · intro hm
    refine ⟨?_, ?_, ?_⟩
    · intro hcmp
      simp [classify_query, hm, hcmp]
    · intro hcmp
      have h1 : ¬ (calculate_llm_score (normalizeQuery q) <
          calculate_search_score (normalizeQuery q)) := by omega
      simp [classify_query, hm, h1, hcmp]
    · intro hcmp
      have h1 : ¬ (calculate_llm_score (normalizeQuery q) <
          calculate_search_score (normalizeQuery q)) := by omega
      have h2 : ¬ (calculate_search_score (normalizeQuery q) <
          calculate_llm_score (normalizeQuery q)) := by omega
      simp [classify_query, hm, h1, h2]
  · by_cases hm : is_mathematical_query (normalizeQuery q) = true
    · right
      simp [classify_query, hm]
    · by_cases h1 : calculate_llm_score (normalizeQuery q) <
          calculate_search_score (normalizeQuery q)
      · left
        simp [classify_query, hm, h1]
      · right
        by_cases h2 : calculate_search_score (normalizeQuery q) <
            calculate_llm_score (normalizeQuery q) <;>
          simp [classify_query, hm, h1, h2]

theorem C2_classify_query_score_comparison_witness :
    classify_query "hello" = "llm" :=
  ((C2_classify_query_score_comparison "hello").1 (by decide)).2.2 (by decide)

/-- C3: on the normalized query the search score is exactly the number
of search keywords contained as substrings (one per distinct keyword —
the keyword table is duplicate-free), plus 1 when the first
whitespace-delimited token is a question starter, plus 2 per matching
factual pattern; it is a `Nat` computed from the normalized text
alone. -/
theorem C3_calculate_search_score_closed_form :
    search_keywords.Nodup ∧
    ∀ query : List Char,
      calculate_search_score query =
        search_keywords.countP (fun kw => occursIn kw.toList query) +
          (if question_starters.contains (firstWord query) then 1 else 0) +
          2 * factual_patterns.countP (fun p => occursIn p.toList query) := by
  constructor
  · decide
  · intro query
    simp only [calculate_search_score]
    rw [foldl_count_add, foldl_count_add]
    by_cases h : firstWord query ∈ question_starters <;> simp [h]

/-- C4: on the normalized query the llm score is exactly the number of
llm keywords contained as substrings (one per distinct keyword — the
keyword table is duplicate-free), plus 2 per matching analytical
pattern, plus 1 when the query has more than 5 whitespace-delimited
tokens. -/
theorem C4_calculate_llm_score_closed_form :
    llm_keywords.Nodup ∧
    ∀ query : List Char,
      calculate_llm_score query =
        llm_keywords.countP (fun kw => occursIn kw.toList query) +
          2 * analytical_patterns.countP
            (fun p => searchGap p.1.toList p.2.toList query) +
          (if 5 < (tokens query).length then 1 else 0) := by
  constructor
  · decide
  · intro query
    simp only [calculate_llm_score]
    rw [foldl_count_add, foldl_count_add]
    by_cases h : 5 < (tokens query).length <;> simp [h]

/-- C5: the router node's normalization of the (stripped, lowercased)
model reply agrees, reply for reply, with the rules the spec states;
the spec names the search branch `search_tool` where the code keys it
`google_tool`, and `keyToChoice` is that naming map.  In particular an
exact tool name maps to its own decision, `google`/`search` substrings
give the search decision, `llm`/`reasoning`/`explain` substrings give
`llm_tool`, and anything else (e.g. `banana`) defaults to
`llm_tool`. -/
theorem C5_normalize_decision_matches_spec (reply : String) :
    keyToChoice (normalize_decision reply) = spec_normalize_decision reply := by
  by_cases h1 : reply = "google_tool"
  · subst h1; decide
  by_cases h2 : reply = "llm_tool"
  · subst h2; decide
  by_cases h3 : reply = "search_tool"
  · subst h3; decide
  simp only [normalize_decision, spec_normalize_decision, keyToChoice,
    if_neg (not_or.mpr ⟨h1, h2⟩), if_neg h3, if_neg h2]
  cases hA : containsStr reply "google" || containsStr reply "search" <;>
    cases hB : containsStr reply "llm" || containsStr reply "reasoning" ||
        containsStr reply "explain" <;>
      decide

/-- C6: a failure of the model invocation inside the router node is
caught: the node returns the state with the fallback decision
`llm_tool`, the error message recorded, and the query untouched — it
never re-raises. -/
theorem C6_router_node_catches_invoke_failure (state : RouterState) (e : String) :
    router_node state (Except.error e) =
      { state with tool_decision := "llm_tool",
                   error := "Router error: " ++ e } :=
  rfl

/-- C7: when the provider selected for the query raises on invocation,
the orchestrator's `process_query` converts the exception into the
`{error, query, source: Error Handler}` result instead of letting it
escape (classification itself is a pure total function in this model,
so the provider call is the only failure point). -/
theorem C7_process_query_converts_provider_errors
    (search_provider llm_provider : String → Except String ResultDict)
    (q e : String) :
    (classify_query q = "search" → search_provider q = Except.error e →
      process_query search_provider llm_provider q =
        { error := some e, query := some q, source := some "Error Handler" }) ∧
    (classify_query q = "llm" → llm_provider q = Except.error e →
      process_query search_provider llm_provider q =
        { error := some e, query := some q, source := some "Error Handler" }) := by
  constructor <;> intro hc hp <;> simp [process_query, hc, hp, Except.map]

theorem C7_process_query_converts_provider_errors_witness :
    process_query (fun _ => Except.error "boom") (fun _ => Except.error "boom")
        "" =
      { error := some "boom", query := some "", source := some "Error Handler" } :=
  (C7_process_query_converts_provider_errors
    (fun _ => Except.error "boom") (fun _ => Except.error "boom") "" "boom").2
    (by decide) rfl

/-- C8: the explanation returned by `get_classification_explanation`
carries exactly the classification of `classify_query` and the scores
and math flag computed on the normalized query. -/
theorem C8_explanation_consistent (q : String) :
    (get_classification_explanation q).classification = classify_query q ∧
    (get_classification_explanation q).search_score =
      calculate_search_score (normalizeQuery q) ∧
    (get_classification_explanation q).llm_score =
      calculate_llm_score (normalizeQuery q) ∧
    (get_classification_explanation q).is_mathematical =
      is_mathematical_query (normalizeQuery q) :=
  ⟨rfl, rfl, rfl, rfl⟩

/-- C9: for every query and every outcome of the model invocation, the
router node leaves one of the two valid tool keys on the state, so the
conditional branch never returns its defensive `error` key — the error
terminal of the graph is unreachable. -/
theorem C9_decision_graph_error_branch_unreachable (q : String)
    (invoke : Except String String) :
    ((router_node (initial_state q) invoke).tool_decision = "google_tool" ∨
      (router_node (initial_state q) invoke).tool_decision = "llm_tool") ∧
    route_decision (router_node (initial_state q) invoke) ≠ "error" := by
  have hkeys : (router_node (initial_state q) invoke).tool_decision =
        "google_tool" ∨
      (router_node (initial_state q) invoke).tool_decision = "llm_tool" := by
    cases invoke with
    | ok content => exact normalize_decision_mem (stripLower content)
    | error e => right; rfl
  refine ⟨hkeys, ?_⟩
  rcases hkeys with h | h <;> simp [route_decision, h]

/-- The words of the two alternation patterns of the mathematical
pre-check that match as plain substrings. -/
def math_substring_words : List String :=
  ["solve", "calculate", "compute", "equation", "formula", "function"]

/-- C10: any query whose lowercased text contains one of the math
alternation words as a substring — also inside a longer word such as
`dissolve` or `malfunction` — is classified `"llm"`, whatever its
search score. -/
theorem C10_math_word_substring_forces_llm (q w : String)
    (hw : w ∈ math_substring_words)
    (h : occursIn w.toList (lowerList q.toList) = true) :
    classify_query q = "llm" := by
  have hocc : occursIn w.toList (lowerList (normalizeQuery q)) = true := by
    refine occursIn_after_normalize w q ?_ ?_ ?_ h <;>
      · fin_cases hw <;> decide
  apply classify_query_of_mathematical
  have hpat : mathPat3 (lowerList (normalizeQuery q)) = true ∨
      mathPat4 (lowerList (normalizeQuery q)) = true := by
    fin_cases hw
    · left
      simp only [mathPat3, Bool.or_eq_true]
      exact Or.inl (Or.inl (Or.inl hocc))
    · left
      simp only [mathPat3, Bool.or_eq_true]
      exact Or.inl (Or.inl (Or.inr hocc))
    · left
      simp only [mathPat3, Bool.or_eq_true]
      exact Or.inl (Or.inr hocc)
    · right
      simp only [mathPat4, Bool.or_eq_true]
      exact Or.inl (Or.inl hocc)
    · right
      simp only [mathPat4, Bool.or_eq_true]
      exact Or.inl (Or.inr hocc)
    · right
      simp only [mathPat4, Bool.or_eq_true]
      exact Or.inr hocc
  rcases hpat with hpat | hpat <;> simp [is_mathematical_query, hpat]

theorem C10_math_word_substring_forces_llm_witness :
    "solve" ∈ math_substring_words ∧
      occursIn "solve".toList (lowerList "What is dissolve".toList) = true ∧
      classify_query "What is dissolve" = "llm" :=
  ⟨by decide, by decide,
    C10_math_word_substring_forces_llm "What is dissolve" "solve"
      (by decide) (by decide)⟩

end QueryRouting
